import Mathlib

/-!
# Verification of the DW1000 Clock Calibration Protocol (CCP) engine

Shallow embedding of `hw/drivers/dw1000/src/dw1000_ccp.c`: the frame store,
the blink state machine, the reception/drift estimator, the scheduling-timer
callback, and the init/start entry points, together with theorems checking
the design document's testable properties against this embedding.

Machine integers are modelled as `Nat` (resp. `Int` where C's integer
promotions make an expression signed), with explicit reductions modulo
`2^8`, `2^16` and `2^64` where the C types wrap.  The 32-bit float
`correction_factor` is modelled as a rational number.
-/

namespace DW1000CCP

/-- Truncation to a `uint8_t` value. -/
def u8 (n : Nat) : Nat := n % 256

/-- Truncation to a `uint16_t` value. -/
def u16 (n : Nat) : Nat := n % 65536

/-- Truncation to a `uint64_t` value. -/
def u64 (n : Nat) : Nat := n % (2 ^ 64)

/-- Modelled from the spec: the frame-control constant
`FCNTL_IEEE_BLINK_CCP_64` is defined in `dw1000_ftypes.h`, which is not under
`src/`; its concrete value is irrelevant to every claim, only its identity as
the header word of the static frame templates matters. -/
def fcntl_ieee_blink_ccp_64 : Nat := 0xC5

/-- Modelled from the spec: `ccp_frame_t` is declared in `dw1000_ccp.h`,
which is not under `src/`.  Field widths follow the spec's data model
(64-bit hardware timestamps, 32-bit float correction factor, inherited
blink-frame header with sequence number and long address) and the analogous
`pan_frame_t` declared in `src/hw/drivers/dw1000/include/dw1000/dw1000_pan.h`.
The `array` union view of the packed record is represented by the fields the
code reads and writes through it (`fctrl`, `seq_num`, `long_address`). -/
structure CcpFrame where
  fctrl : Nat
  seq_num : Nat
  long_address : Nat
  transmission_timestamp : Nat
  reception_timestamp : Nat
  correction_factor : ℚ
deriving Repr, DecidableEq

/-- Modelled from the spec: `dw1000_ccp_status_t` is declared in
`dw1000_ccp.h`, which is not under `src/`; the bitfield names are those the
code in `dw1000_ccp.c` uses, mirrored by `dw1000_pan_status_t` in
`src/.../dw1000_pan.h`. -/
structure CcpStatus where
  selfmalloc : Bool
  initialized : Bool
  valid : Bool
  start_tx_error : Bool
  timer_enabled : Bool
deriving Repr, DecidableEq

/-- Modelled from the spec: `dw1000_ccp_instance_t` (plus the fields of the
owning `dw1000_dev_instance_t` that `dw1000_ccp.c` touches) is declared in
headers not under `src/`.  Field widths follow the spec's data model and the
analogous `dw1000_pan_instance_t` in `src/.../dw1000_pan.h` (`uint32_t
period`, `uint16_t nframes`, `uint16_t idx`, flexible array of frame
pointers).  `frames` maps a (possibly negative, i.e. out-of-bounds) C array
index to the content of the frame it points to.  `rx_cb` and `tx_cb` are
opaque identities of the registered completion callbacks.  `sem` is the
token count of the binary completion semaphore. -/
structure CcpState where
  nframes : Nat
  idx : Nat
  period : Nat
  frames : Int → CcpFrame
  status : CcpStatus
  config_postprocess : Bool
  sem : Nat
  my_short_address : Nat
  clock_master : Nat
  rx_cb : Nat
  tx_cb : Nat

/-- Pointwise update of the frame table at one C array index. -/
def updFrames (f : Int → CcpFrame) (i : Int) (v : CcpFrame) : Int → CcpFrame :=
  fun j => if j = i then v else f j

/-- The current slot index `(ccp->idx) % ccp->nframes`
(`dw1000_ccp.c:326`): both operands are `uint16_t`, promoted to `int`, so
the result is the (nonnegative) truncated remainder. -/
def currentSlot (idx nframes : Nat) : Int := Int.tmod (idx : Int) (nframes : Int)

/-- The previous slot index `(ccp->idx-1) % ccp->nframes`
(`dw1000_ccp.c:327`, also `:222` and `:285`): `ccp->idx` is `uint16_t` and
`1` is `int`, so the subtraction and the `%` are carried out in signed
`int` arithmetic with C's truncated remainder; at `idx = 0` this yields
`-1`, not a 16-bit wraparound. -/
def previousSlot (idx nframes : Nat) : Int := Int.tmod ((idx : Int) - 1) (nframes : Int)

/-- The previous-slot computation as the claim words it: `(idx-1) mod
nframes` carried out in unsigned 16-bit arithmetic.  This definition follows
the spec's words, for comparison against `previousSlot`, which is the
code's computation. -/
def previousSlotSpec (idx nframes : Nat) : Nat := (u16 (idx + 65535)) % nframes

/-- The microsecond-to-device-tick scale factor `(uint64_t)period << 15`
used at `dw1000_ccp.c:329` and `:342`. -/
def scalePeriod (period : Nat) : Nat := period <<< 15

/-- `DWT_BLOCKING` / `DWT_NONBLOCKING` modes of `dw1000_dev_modes_t`. -/
inductive DwMode where
  | BLOCKING
  | NONBLOCKING
deriving Repr, DecidableEq

/-- Result of the immediate (non-waiting) part of `dw1000_ccp_blink`:
the post-state, the returned status, and whether the call goes on to block
on the semaphore waiting for transmit completion (the `DWT_BLOCKING` branch
at `dw1000_ccp.c:345`). -/
structure BlinkResult where
  state : CcpState
  status : CcpStatus
  waits_for_completion : Bool

/-- Embedding of `dw1000_ccp_blink` (`dw1000_ccp.c:319-350`) up to and
including the `start_tx_error` branch.  `hw_start_tx_error` is the outcome
reported by `dw1000_start_tx` (the hardware accepting or rejecting the
armed delayed start).  The initial `os_sem_pend` is represented by the
decrement of `sem`; theorems about this function assume the semaphore is
available (`sem = 1`).  The radio writes (`dw1000_write_tx`,
`dw1000_write_tx_fctrl`, `dw1000_set_wait4resp`, `dw1000_set_delay_start`)
have no effect on the modelled state. -/
def dw1000_ccp_blink (s : CcpState) (hw_start_tx_error : Bool) (mode : DwMode) :
    BlinkResult :=
  let cur := currentSlot s.idx s.nframes
  let prev := previousSlot s.idx s.nframes
  let frame := s.frames cur
  let previous_frame := s.frames prev
  let frame1 : CcpFrame :=
    { frame with
      transmission_timestamp :=
        u64 (previous_frame.transmission_timestamp + 2 * scalePeriod s.period)
      seq_num := u8 (frame.seq_num + s.nframes)
      long_address := s.my_short_address }
  let frames1 := updFrames s.frames cur frame1
  let s1 : CcpState :=
    { s with
      frames := frames1
      sem := s.sem - 1
      status := { s.status with start_tx_error := hw_start_tx_error } }
  if hw_start_tx_error then
    let pf := frames1 prev
    let frames2 := updFrames frames1 prev
      { pf with
        transmission_timestamp := u64 (pf.transmission_timestamp + scalePeriod s.period) }
    let s2 : CcpState := { s1 with frames := frames2, sem := s1.sem + 1 }
    ⟨s2, s2.status, false⟩
  else
    ⟨s1, s1.status, mode = DwMode.BLOCKING⟩

/-- The header fields of a received `ieee_blink_frame_t`, as copied by
`dw1000_read_rx(inst, frame->array, 0, sizeof(ieee_blink_frame_t))` at
`dw1000_ccp.c:254`. -/
structure BlinkPayload where
  fctrl : Nat
  seq_num : Nat
  long_address : Nat
deriving Repr, DecidableEq

/-- Embedding of `ccp_rx_complete_cb` (`dw1000_ccp.c:247-262`).  The
hardware inputs are the received payload, the RX timestamp read by
`dw1000_read_rxtime`, and the two phase-tracking register values
(`tracking_interval` from `RX_TTCKI_ID`, and `tracking_offset`, the
`RX_TTCKO_RXTOFS_MASK`-masked read of `RX_TTCKO_ID`), as the `int32_t`
local variables of the callback hold them.  The `float` correction factor
is modelled as an exact rational.  The postprocess enqueue has no effect on
the modelled state. -/
def ccp_rx_complete_cb (s : CcpState) (payload : BlinkPayload) (rxtime : Nat)
    (tracking_interval tracking_offset : Int) : CcpState :=
  let idx1 := u16 (s.idx + 1)
  let slot := currentSlot idx1 s.nframes
  let valid1 := s.status.valid || decide (idx1 > 1)
  if valid1 then
    let f := s.frames slot
    let f1 : CcpFrame :=
      { f with
        fctrl := payload.fctrl
        seq_num := payload.seq_num
        long_address := payload.long_address
        reception_timestamp := rxtime
        correction_factor :=
          1 + (tracking_offset : ℚ) / (tracking_interval : ℚ) }
    { s with
      idx := idx1
      frames := updFrames s.frames slot f1
      status := { s.status with valid := valid1 } }
  else
    { s with idx := idx1, status := { s.status with valid := valid1 } }

/-- Embedding of `ccp_tx_complete_cb` (`dw1000_ccp.c:281-299`): the frame
index is post-incremented and the semaphore released; the `printf` only
reads state, and the conditional `os_callout_reset` has no effect on the
modelled state. -/
def ccp_tx_complete_cb (s : CcpState) : CcpState :=
  { s with idx := u16 (s.idx + 1), sem := s.sem + 1 }

/-- A radio completion event: either a receive-complete (with its hardware
inputs) or a transmit-complete. -/
inductive CcpEvent where
  | rx (payload : BlinkPayload) (rxtime : Nat) (tracking_interval tracking_offset : Int)
  | tx

/-- One completion-callback step. -/
def ccpStep (s : CcpState) : CcpEvent → CcpState
  | CcpEvent.rx p t ti toff => ccp_rx_complete_cb s p t ti toff
  | CcpEvent.tx => ccp_tx_complete_cb s

/-- A run of completion events. -/
def ccpRun (s : CcpState) : List CcpEvent → CcpState
  | [] => s
  | e :: es => ccpRun (ccpStep s e) es

/-- The mode `ccp_timer_ev_cb` passes to `dw1000_ccp_blink`
(`dw1000_ccp.c:83`): `DWT_BLOCKING`. -/
def ccpTimerBlinkMode : DwMode := DwMode.BLOCKING

/-- Embedding of `ccp_timer_ev_cb` (`dw1000_ccp.c:76-85`): invoke the blink
state machine with mode `ccpTimerBlinkMode`; if the returned status carries
`start_tx_error`, reschedule the callout.  The second component is the
reschedule delay in microseconds (`ccp->period - MYNEWT_VAL(OS_LATENCY)`,
taken in truncated Nat subtraction, which agrees with the C `uint32_t`
subtraction whenever the latency guard does not exceed the period; the
source converts the microsecond value to OS ticks by multiplying with
`OS_TICKS_PER_SEC * 1e-6`), or `none` when no reschedule is issued by this
callback. -/
def ccp_timer_ev_cb (s : CcpState) (hw_start_tx_error : Bool) (osLatency : Nat) :
    CcpState × Option Nat :=
  let r := dw1000_ccp_blink s hw_start_tx_error ccpTimerBlinkMode
  (r.state, if r.status.start_tx_error then some (r.state.period - osLatency) else none)

/-- The static frame template array `frames[]` (`dw1000_ccp.c:41-52`):
exactly two records, with `fctrl = FCNTL_IEEE_BLINK_CCP_64`, sequence
numbers `0xFE` and `0xFF`, and `correction_factor = 1.0f`; all other
fields zero-initialized. -/
def frames_template : List CcpFrame :=
  [ { fctrl := fcntl_ieee_blink_ccp_64, seq_num := 0xFE, long_address := 0,
      transmission_timestamp := 0, reception_timestamp := 0, correction_factor := 1 },
    { fctrl := fcntl_ieee_blink_ccp_64, seq_num := 0xFF, long_address := 0,
      transmission_timestamp := 0, reception_timestamp := 0, correction_factor := 1 } ]

/-- The indices of the static template array read by the frame-pointer
assignment loop `for (i = 0; i < nframes; i++) frames[i] = &frames[i]`
(`dw1000_ccp.c:149-150`). -/
def ccpInitTemplateReads (nframes : Nat) : List Nat := List.range nframes

/-- Opaque identity of the `ccp_rx_complete_cb` callback registered by
`dw1000_ccp_set_callbacks`. -/
def ccp_rx_complete_cb_id : Nat := 0

/-- Opaque identity of the `ccp_tx_complete_cb` callback registered by
`dw1000_ccp_set_callbacks`. -/
def ccp_tx_complete_cb_id : Nat := 1

/-- The freshly allocated and zeroed CCP instance (`malloc` + `memset` +
`selfmalloc = 1`, `nframes = nframes` at `dw1000_ccp.c:131-135`), with the
frame-pointer table pointing into the static template (in-bounds entries
hold the template contents of a fresh process image; out-of-bounds entries
are unconstrained and modelled by a zero frame). -/
def freshCcp (nframes : Nat) : CcpState :=
  { nframes := nframes
    idx := 0
    period := 0
    frames := fun i =>
      if h : 0 ≤ i ∧ i.toNat < frames_template.length then
        frames_template.get ⟨i.toNat, h.2⟩
      else
        { fctrl := 0, seq_num := 0, long_address := 0, transmission_timestamp := 0,
          reception_timestamp := 0, correction_factor := 0 }
    status := { selfmalloc := true, initialized := false, valid := false,
                start_tx_error := false, timer_enabled := false }
    config_postprocess := false
    sem := 0
    my_short_address := 0
    clock_master := 0
    rx_cb := 0
    tx_cb := 0 }

/-- Result of `dw1000_ccp_init`: the instance state, whether a fresh
allocation was performed, and the static-template indices read by the
frame-pointer loop. -/
structure CcpInitResult where
  inst : CcpState
  fresh_alloc : Bool
  template_reads : List Nat

/-- The part of `dw1000_ccp_init` common to first-time and repeated calls
(`dw1000_ccp.c:139-158`): set `period` from the configuration constant
`MYNEWT_VAL(CCP_PERIOD)`, clear then (via `dw1000_ccp_set_postprocess`) set
`config.postprocess`, record the clock master, re-initialize the semaphore
to one token, re-register the completion callbacks, re-point the
frame-pointer table at the static template — reading template indices
`0..nframes-1` (a content no-op for an existing instance) — stamp the
current slot's `transmission_timestamp` with the system time, and set
`initialized`. -/
def ccpInitTail (c : CcpState) (fresh : Bool) (clock_master ccp_period systime : Nat) :
    CcpInitResult :=
  let c1 : CcpState :=
    { c with
      period := ccp_period
      config_postprocess := true
      clock_master := clock_master
      sem := 1
      rx_cb := ccp_rx_complete_cb_id
      tx_cb := ccp_tx_complete_cb_id }
  let cur := currentSlot c1.idx c1.nframes
  let f := c1.frames cur
  let c2 : CcpState :=
    { c1 with
      frames := updFrames c1.frames cur { f with transmission_timestamp := systime }
      status := { c1.status with initialized := true } }
  ⟨c2, fresh, ccpInitTemplateReads c.nframes⟩

/-- Embedding of `dw1000_ccp_init` (`dw1000_ccp.c:126-159`).  `none` models
an assertion failure (`assert(inst->ccp->nframes == nframes)` on re-init
with a mismatched frame count).  `ccp_period` stands for the configuration
constant `MYNEWT_VAL(CCP_PERIOD)` and `systime` for the value read by
`dw1000_read_systime`. -/
def dw1000_ccp_init (prev : Option CcpState) (nframes : Nat) (clock_master : Nat)
    (ccp_period : Nat) (systime : Nat) : Option CcpInitResult :=
  match prev with
  | none => some (ccpInitTail (freshCcp nframes) true clock_master ccp_period systime)
  | some c =>
    if c.nframes = nframes then
      some (ccpInitTail c false clock_master ccp_period systime)
    else
      none

/-- Embedding of `dw1000_ccp_start` (`dw1000_ccp.c:366-375`): reset `idx`
to zero, clear `valid`, stamp the current (now slot-0) frame's
`transmission_timestamp` with the hardware system time, and start the
scheduling timer (`ccp_timer_init` sets `timer_enabled`; the callout
machinery itself is outside the modelled state). -/
def dw1000_ccp_start (s : CcpState) (systime : Nat) : CcpState :=
  let s1 : CcpState := { s with idx := 0, status := { s.status with valid := false } }
  let cur := currentSlot s1.idx s1.nframes
  let f := s1.frames cur
  let s2 : CcpState :=
    { s1 with frames := updFrames s1.frames cur { f with transmission_timestamp := systime } }
  { s2 with status := { s2.status with timer_enabled := true } }

/-! ## Sample states used by witnesses and counterexamples -/

/-- A frame with all fields zero. -/
def zeroFrame : CcpFrame :=
  { fctrl := 0, seq_num := 0, long_address := 0, transmission_timestamp := 0,
    reception_timestamp := 0, correction_factor := 0 }

/-- A concrete running status: initialized, timer enabled, not yet valid. -/
def sampleStatus : CcpStatus :=
  { selfmalloc := true, initialized := true, valid := false,
    start_tx_error := false, timer_enabled := true }

/-- A concrete frame table: every index holds the same template-like frame. -/
def sampleFrames : Int → CcpFrame :=
  fun _ =>
    { fctrl := fcntl_ieee_blink_ccp_64, seq_num := 0xFE, long_address := 0,
      transmission_timestamp := 100, reception_timestamp := 50, correction_factor := 1 }

/-- A concrete two-slot instance after one completed transmission. -/
def sampleState : CcpState :=
  { nframes := 2, idx := 1, period := 1000, frames := sampleFrames,
    status := sampleStatus, config_postprocess := true, sem := 1,
    my_short_address := 17, clock_master := 3,
    rx_cb := ccp_rx_complete_cb_id, tx_cb := ccp_tx_complete_cb_id }

/-- A concrete two-slot instance at the start of a run (index zero). -/
def sampleState0 : CcpState :=
  { sampleState with idx := 0 }

/-! ## Helper lemmas -/

/-- Reading the just-updated index of the frame table. -/
lemma updFrames_self (f : Int → CcpFrame) (i : Int) (v : CcpFrame) :
    updFrames f i v i = v := by
  simp [updFrames]

/-- Reading an index of the frame table other than the updated one. -/
lemma updFrames_ne (f : Int → CcpFrame) (i j : Int) (v : CcpFrame) (h : j ≠ i) :
    updFrames f i v j = f j := by
  simp [updFrames, h]

/-- C's truncated remainder of `-1` by any modulus at least `2` is `-1`. -/
lemma neg_one_tmod (n : Nat) (h : 2 ≤ n) : Int.tmod (-1) (n : Int) = -1 := by
  show Int.tmod (Int.negSucc 0) (Int.ofNat n) = -1
  simp only [Int.tmod]
  have h1 : Nat.succ 0 % n = 1 := Nat.mod_eq_of_lt (by omega)
  simp [h1]

/-- The current slot at index zero is slot `0`. -/
lemma currentSlot_zero (n : Nat) : currentSlot 0 n = 0 := by
  simp [currentSlot, Int.zero_tmod]

/-- At index zero the code's previous-slot expression evaluates to `-1`:
an out-of-bounds frame-table index, not a 16-bit wraparound. -/
lemma previousSlot_zero (n : Nat) (h : 2 ≤ n) : previousSlot 0 n = -1 := by
  unfold previousSlot
  norm_num
  exact neg_one_tmod n h

/-- Truncated remainders of two consecutive nonnegative integers by a
modulus at least `2` differ. -/
lemma tmod_succ_ne_tmod (k n : Nat) (h : 2 ≤ n) :
    Int.tmod ((k : Int) + 1) (n : Int) ≠ Int.tmod (k : Int) (n : Int) := by
  rw [Int.tmod_eq_emod (by positivity) (by positivity),
      Int.tmod_eq_emod (by positivity) (by positivity)]
  intro heq
  rw [Int.emod_eq_emod_iff_emod_sub_eq_zero] at heq
  simp only [add_sub_cancel_left] at heq
  rw [Int.emod_eq_of_lt (by norm_num) (by exact_mod_cast h)] at heq
  exact one_ne_zero heq

/-- With at least two frame slots, the code's current-slot and
previous-slot indices never coincide (at index zero the previous index is
`-1`, which in particular differs from every in-bounds slot). -/
lemma currentSlot_ne_previousSlot (idx n : Nat) (h : 2 ≤ n) :
    currentSlot idx n ≠ previousSlot idx n := by
  cases idx with
  | zero =>
    rw [currentSlot_zero, previousSlot_zero n h]
    norm_num
  | succ k =>
    unfold currentSlot previousSlot
    have hc : ((Nat.succ k : Nat) : Int) = (k : Int) + 1 := by push_cast; ring
    rw [hc]
    have hp : (k : Int) + 1 - 1 = (k : Int) := by ring
    rw [hp]
    exact tmod_succ_ne_tmod k n h

/-- Folding an outer `2^64` reduction over a left summand. -/
lemma u64_add_left (a b : Nat) : u64 (u64 a + b) = u64 (a + b) := by
  simp [u64, Nat.mod_add_mod]

/-! ## Claim theorems -/

/-- C1: For every blink attempt with previous slot transmission timestamp
`T` and configured period `P` (at least two frame slots, as the protocol
requires): if the hardware accepts the start, the current slot's
`transmission_timestamp` is set to `T + 2*(P << 15)`; if the hardware
rejects the start, the state is left so that the next blink attempt
computes a `transmission_timestamp` equal to `T + (P << 15) + 2*(P << 15)`,
one extra epoch later — all in the wrapping `uint64_t` arithmetic of the
source. -/
theorem ccp_blink_timestamp_schedule (s : CcpState) (mode mode' : DwMode)
    (accept' : Bool) (h : 2 ≤ s.nframes) :
    ((dw1000_ccp_blink s false mode).state.frames
        (currentSlot s.idx s.nframes)).transmission_timestamp
      = u64 ((s.frames (previousSlot s.idx s.nframes)).transmission_timestamp
          + 2 * scalePeriod s.period)
    ∧ ((dw1000_ccp_blink (dw1000_ccp_blink s true mode).state accept' mode').state.frames
        (currentSlot s.idx s.nframes)).transmission_timestamp
      = u64 ((s.frames (previousSlot s.idx s.nframes)).transmission_timestamp
          + scalePeriod s.period + 2 * scalePeriod s.period) := by
  have hne := currentSlot_ne_previousSlot s.idx s.nframes h
  have hne' : previousSlot s.idx s.nframes ≠ currentSlot s.idx s.nframes := hne.symm
  constructor
  · simp [dw1000_ccp_blink, updFrames_self]
  · cases accept' with
    | false =>
      simp [dw1000_ccp_blink, updFrames_self, updFrames_ne _ _ _ _ hne,
        updFrames_ne _ _ _ _ hne', u64_add_left, Nat.add_assoc]
    | true =>
      simp [dw1000_ccp_blink, updFrames_self, updFrames_ne _ _ _ _ hne,
        updFrames_ne _ _ _ _ hne', u64_add_left, Nat.add_assoc]

/-- C1 witness: the schedule equations evaluated on the concrete sample
state (two slots, period 1000, previous timestamp 100). -/
theorem ccp_blink_timestamp_schedule_witness :
    2 ≤ sampleState.nframes
    ∧ ((dw1000_ccp_blink sampleState false DwMode.NONBLOCKING).state.frames
        (currentSlot sampleState.idx sampleState.nframes)).transmission_timestamp
      = 65536100
    ∧ ((dw1000_ccp_blink (dw1000_ccp_blink sampleState true DwMode.NONBLOCKING).state
          true DwMode.BLOCKING).state.frames
        (currentSlot sampleState.idx sampleState.nframes)).transmission_timestamp
      = 98304100 := by
  have h := ccp_blink_timestamp_schedule sampleState DwMode.NONBLOCKING DwMode.BLOCKING
    true (by decide)
  refine ⟨by decide, ?_, ?_⟩
  · rw [h.1]; decide
  · rw [h.2]; decide

/-- C2 counterexample: under the claim's own reading — the previous slot
computed as `(idx-1) mod nframes` in unsigned 16-bit arithmetic — the
current and previous slots alias at `idx = 0`, `nframes = 3` (both are slot
`0`, since `65535 % 3 = 0`); the code's actual previous-slot expression
evaluates to `-1` there (signed `int` promotion), not to a 16-bit
wraparound. -/
theorem ccp_slots_u16_alias_counterexample :
    previousSlotSpec 0 3 = 0 ∧ currentSlot 0 3 = 0 ∧ previousSlot 0 3 = -1 := by
  refine ⟨by decide, by decide, by decide⟩

/-- C2 (amended): for every configured frame count `nframes ≥ 2` and every
index `idx`, the current-slot and previous-slot indices computed by the
code are distinct; for `idx ≥ 1` both are in-bounds slot numbers, while at
`idx = 0` the previous index is `-1` — out of bounds of the frame-pointer
table (the subtraction is promoted to signed `int`, so it does not wrap to
`65535`, and distinctness at `idx = 0` is an out-of-bounds access rather
than a second valid slot). -/
theorem ccp_slots_distinct (idx n : Nat) (h : 2 ≤ n) :
    currentSlot idx n ≠ previousSlot idx n
    ∧ (1 ≤ idx → 0 ≤ previousSlot idx n ∧ previousSlot idx n < n
        ∧ 0 ≤ currentSlot idx n ∧ currentSlot idx n < n)
    ∧ (idx = 0 → previousSlot idx n = -1) := by
  refine ⟨currentSlot_ne_previousSlot idx n h, ?_, ?_⟩
  · intro hidx
    obtain ⟨k, rfl⟩ : ∃ k, idx = k + 1 := ⟨idx - 1, by omega⟩
    have hcast : ((k + 1 : Nat) : Int) - 1 = (k : Int) := by push_cast; ring
    unfold currentSlot previousSlot
    rw [hcast]
    rw [Int.tmod_eq_emod (by positivity) (by positivity),
        Int.tmod_eq_emod (by positivity) (by positivity)]
    have hn : (0 : Int) < (n : Int) := by exact_mod_cast Nat.lt_of_lt_of_le (by norm_num) h
    exact ⟨Int.emod_nonneg _ (by omega), Int.emod_lt_of_pos _ hn,
      Int.emod_nonneg _ (by omega), Int.emod_lt_of_pos _ hn⟩
  · intro hidx
    subst hidx
    exact previousSlot_zero n h

/-- C2 witness: distinctness and bounds at `idx = 5`, `nframes = 2`, and
the out-of-bounds previous index at `idx = 0`, `nframes = 3`. -/
theorem ccp_slots_distinct_witness :
    (currentSlot 5 2 ≠ previousSlot 5 2 ∧ 0 ≤ previousSlot 5 2 ∧ previousSlot 5 2 < 2)
    ∧ previousSlot 0 3 = -1 :=
  ⟨⟨(ccp_slots_distinct 5 2 (by decide)).1,
    ((ccp_slots_distinct 5 2 (by decide)).2.1 (by decide)).1,
    ((ccp_slots_distinct 5 2 (by decide)).2.1 (by decide)).2.1⟩,
   (ccp_slots_distinct 0 3 (by decide)).2.2 rfl⟩

/-- Every completion-callback step preserves a set `valid` flag: the
receive path only ever OR-accumulates into `valid`
(`ccp->status.valid |= ccp->idx > 1`) and the transmit path does not touch
the status word. -/
lemma ccpStep_valid_mono (t : CcpState) (e : CcpEvent)
    (h : t.status.valid = true) : (ccpStep t e).status.valid = true := by
  cases e with
  | rx p rt ti toff =>
    simp [ccpStep, ccp_rx_complete_cb, h]
  | tx =>
    simp [ccpStep, ccp_tx_complete_cb, h]

/-- A set `valid` flag survives any run of completion events. -/
lemma ccpRun_valid_mono (evs : List CcpEvent) (t : CcpState)
    (h : t.status.valid = true) : (ccpRun t evs).status.valid = true := by
  induction evs generalizing t with
  | nil => exact h
  | cons e es ih =>
    simp only [ccpRun]
    exact ih _ (ccpStep_valid_mono t e h)

/-- C3: Starting from index `0` with `valid` clear, the `valid` status flag
is still false after the first receive-complete event, becomes true on the
second receive-complete event (post-increment index `2 > 1`), and once true
it is never cleared again by any later sequence of receive- or
transmit-complete events. -/
theorem ccp_valid_two_receptions_then_monotone (s : CcpState)
    (h0 : s.idx = 0) (hv : s.status.valid = false)
    (p1 p2 : BlinkPayload) (t1 t2 : Nat) (ti1 ti2 toff1 toff2 : Int) :
    (ccp_rx_complete_cb s p1 t1 ti1 toff1).status.valid = false
    ∧ (ccp_rx_complete_cb (ccp_rx_complete_cb s p1 t1 ti1 toff1)
        p2 t2 ti2 toff2).status.valid = true
    ∧ ∀ (t : CcpState) (evs : List CcpEvent), t.status.valid = true →
        (ccpRun t evs).status.valid = true := by
  refine ⟨?_, ?_, fun t evs ht => ccpRun_valid_mono evs t ht⟩
  · simp [ccp_rx_complete_cb, u16, hv, h0]
  · simp [ccp_rx_complete_cb, u16, hv, h0]

/-- C3 witness: two receptions on the concrete start state, then a
transmit- and a receive-complete event on a valid state. -/
theorem ccp_valid_two_receptions_then_monotone_witness :
    sampleState0.idx = 0 ∧ sampleState0.status.valid = false
    ∧ (ccp_rx_complete_cb sampleState0 ⟨0xC5, 1, 2⟩ 10 3 1).status.valid = false
    ∧ (ccp_rx_complete_cb (ccp_rx_complete_cb sampleState0 ⟨0xC5, 1, 2⟩ 10 3 1)
        ⟨0xC5, 2, 2⟩ 20 3 1).status.valid = true
    ∧ (ccpRun { sampleState with status := { sampleStatus with valid := true } }
        [CcpEvent.tx, CcpEvent.rx ⟨0xC5, 3, 2⟩ 30 3 1]).status.valid = true := by
  have h := ccp_valid_two_receptions_then_monotone sampleState0 rfl rfl
    ⟨0xC5, 1, 2⟩ ⟨0xC5, 2, 2⟩ 10 20 3 3 1 1
  exact ⟨rfl, rfl, h.1, h.2.1, h.2.2 _ _ rfl⟩

/-- C4: When a blink attempt's transmit start is rejected by the hardware,
the operation adds one full scaled period (`period << 15`) to the previous
slot's `transmission_timestamp`, releases the semaphore (token count back
to one), returns a status carrying `start_tx_error` without blocking for
completion, and leaves the frame index unchanged. -/
theorem ccp_blink_error_path (s : CcpState) (mode : DwMode)
    (h : 2 ≤ s.nframes) (hsem : s.sem = 1) :
    (dw1000_ccp_blink s true mode).status.start_tx_error = true
    ∧ (dw1000_ccp_blink s true mode).state.sem = 1
    ∧ (dw1000_ccp_blink s true mode).waits_for_completion = false
    ∧ (dw1000_ccp_blink s true mode).state.idx = s.idx
    ∧ ((dw1000_ccp_blink s true mode).state.frames
        (previousSlot s.idx s.nframes)).transmission_timestamp
      = u64 ((s.frames (previousSlot s.idx s.nframes)).transmission_timestamp
          + scalePeriod s.period) := by
  have hne := currentSlot_ne_previousSlot s.idx s.nframes h
  have hne' : previousSlot s.idx s.nframes ≠ currentSlot s.idx s.nframes := hne.symm
  refine ⟨?_, ?_, ?_, ?_, ?_⟩
  · simp [dw1000_ccp_blink]
  · simp [dw1000_ccp_blink, hsem]
  · simp [dw1000_ccp_blink]
  · simp [dw1000_ccp_blink]
  · simp [dw1000_ccp_blink, updFrames_self, updFrames_ne _ _ _ _ hne,
      updFrames_ne _ _ _ _ hne']

/-- C4 witness: the rejected blink on the concrete sample state. -/
theorem ccp_blink_error_path_witness :
    2 ≤ sampleState.nframes ∧ sampleState.sem = 1
    ∧ (dw1000_ccp_blink sampleState true DwMode.NONBLOCKING).status.start_tx_error = true
    ∧ (dw1000_ccp_blink sampleState true DwMode.NONBLOCKING).state.sem = 1
    ∧ (dw1000_ccp_blink sampleState true DwMode.NONBLOCKING).waits_for_completion = false
    ∧ (dw1000_ccp_blink sampleState true DwMode.NONBLOCKING).state.idx = 1
    ∧ ((dw1000_ccp_blink sampleState true DwMode.NONBLOCKING).state.frames
        (previousSlot sampleState.idx sampleState.nframes)).transmission_timestamp
      = 32768100 := by
  have h := ccp_blink_error_path sampleState DwMode.NONBLOCKING (by decide) rfl
  refine ⟨by decide, rfl, h.1, h.2.1, h.2.2.1, ?_, ?_⟩
  · rw [h.2.2.2.1]; decide
  · rw [h.2.2.2.2]; decide

/-- C5: On every valid reception (the post-update `valid` flag true, i.e.
the flag was already set or the post-increment index exceeds one), the new
current slot's correction factor is computed as
`1.0 + tracking_offset / tracking_interval` from the two phase-tracking
register reads; in particular, for every nonzero `tracking_interval`, a
`tracking_offset` of zero yields a correction factor exactly equal to one. -/
theorem ccp_rx_correction_factor (s : CcpState) (p : BlinkPayload)
    (rxtime : Nat) (ti toff : Int)
    (hvalid : s.status.valid = true ∨ u16 (s.idx + 1) > 1) :
    ((ccp_rx_complete_cb s p rxtime ti toff).frames
        (currentSlot (u16 (s.idx + 1)) s.nframes)).correction_factor
      = 1 + (toff : ℚ) / (ti : ℚ)
    ∧ (ti ≠ 0 → toff = 0 →
      ((ccp_rx_complete_cb s p rxtime ti toff).frames
          (currentSlot (u16 (s.idx + 1)) s.nframes)).correction_factor = 1) := by
  have hcond : (s.status.valid || decide (u16 (s.idx + 1) > 1)) = true := by
    rcases hvalid with h | h
    · simp [h]
    · simp [h]
  constructor
  · simp [ccp_rx_complete_cb, hcond, updFrames_self]
  · intro hti htoff
    subst htoff
    simp [ccp_rx_complete_cb, hcond, updFrames_self]

/-- C5 witness: a valid reception with zero tracking offset on the
concrete sample state yields a correction factor of exactly one. -/
theorem ccp_rx_correction_factor_witness :
    (sampleState.status.valid = true ∨ u16 (sampleState.idx + 1) > 1)
    ∧ ((ccp_rx_complete_cb sampleState ⟨0xC5, 2, 2⟩ 20 7 3).frames
        (currentSlot (u16 (sampleState.idx + 1)) sampleState.nframes)).correction_factor
      = 1 + (3 : ℚ) / (7 : ℚ)
    ∧ (7 : Int) ≠ 0
    ∧ ((ccp_rx_complete_cb sampleState ⟨0xC5, 2, 2⟩ 20 7 0).frames
        (currentSlot (u16 (sampleState.idx + 1)) sampleState.nframes)).correction_factor
      = 1 := by
  refine ⟨Or.inr (by decide), ?_, by decide, ?_⟩
  · have h := ccp_rx_correction_factor sampleState ⟨0xC5, 2, 2⟩ 20 7 3
      (Or.inr (by decide))
    simpa using h.1
  · have h := ccp_rx_correction_factor sampleState ⟨0xC5, 2, 2⟩ 20 7 0
      (Or.inr (by decide))
    exact h.2 (by decide) rfl

/-- C6 counterexample: the periodic timer callback does not invoke the
blink operation in non-blocking mode — the mode it passes to
`dw1000_ccp_blink` (`dw1000_ccp.c:83`) is `DWT_BLOCKING`. -/
theorem ccp_timer_mode_counterexample :
    ccpTimerBlinkMode = DwMode.BLOCKING ∧ ccpTimerBlinkMode ≠ DwMode.NONBLOCKING := by
  refine ⟨rfl, by decide⟩

/-- C6 (amended): Every firing of the periodic scheduling timer invokes
the blink operation in blocking mode (`DWT_BLOCKING`); when the attempt
reports a start error the callback reschedules the timer for one epoch
later — `period` minus the OS-latency guard, in microseconds — and when
the attempt reports no start error this callback issues no reschedule (the
transmit-complete callback does). -/
theorem ccp_timer_reschedule_on_error (s : CcpState) (osLatency : Nat) :
    ccpTimerBlinkMode = DwMode.BLOCKING
    ∧ (ccp_timer_ev_cb s true osLatency).2 = some (s.period - osLatency)
    ∧ (ccp_timer_ev_cb s false osLatency).2 = none := by
  refine ⟨rfl, ?_, ?_⟩ <;> simp [ccp_timer_ev_cb, dw1000_ccp_blink]

/-- C7 counterexample: on the first reception (index `0`, `valid` clear)
the frame index is advanced, but the received payload (here with sequence
number `7`, frame control `0xB5`) is not copied into the new current
slot's header fields: the slot keeps its previous sequence number `0xFE`
and reception timestamp `50`. -/
theorem ccp_rx_first_reception_no_copy_counterexample :
    (ccp_rx_complete_cb sampleState0 ⟨0xB5, 7, 9⟩ 10 3 1).idx = 1
    ∧ ((ccp_rx_complete_cb sampleState0 ⟨0xB5, 7, 9⟩ 10 3 1).frames
        (currentSlot 1 sampleState0.nframes)).seq_num = 0xFE
    ∧ (0xFE : Nat) ≠ 7
    ∧ ((ccp_rx_complete_cb sampleState0 ⟨0xB5, 7, 9⟩ 10 3 1).frames
        (currentSlot 1 sampleState0.nframes)).reception_timestamp = 50 := by
  refine ⟨by decide, by decide, by decide, by decide⟩

/-- C7 (amended): On every receive-complete event the frame-store index is
advanced by exactly one (in wrapping 16-bit arithmetic); the received
payload is copied from the radio into the new current slot's header
fields exactly when the updated `valid` flag is set — so not on the first
reception, whose frame store is left untouched apart from the index. -/
theorem ccp_rx_index_advance_copy_when_valid (s : CcpState) (p : BlinkPayload)
    (rxtime : Nat) (ti toff : Int) :
    (ccp_rx_complete_cb s p rxtime ti toff).idx = u16 (s.idx + 1)
    ∧ ((ccp_rx_complete_cb s p rxtime ti toff).status.valid = true →
        ((ccp_rx_complete_cb s p rxtime ti toff).frames
            (currentSlot (u16 (s.idx + 1)) s.nframes)).fctrl = p.fctrl
        ∧ ((ccp_rx_complete_cb s p rxtime ti toff).frames
            (currentSlot (u16 (s.idx + 1)) s.nframes)).seq_num = p.seq_num
        ∧ ((ccp_rx_complete_cb s p rxtime ti toff).frames
            (currentSlot (u16 (s.idx + 1)) s.nframes)).long_address = p.long_address
        ∧ ((ccp_rx_complete_cb s p rxtime ti toff).frames
            (currentSlot (u16 (s.idx + 1)) s.nframes)).reception_timestamp = rxtime)
    ∧ ((ccp_rx_complete_cb s p rxtime ti toff).status.valid = false →
        ∀ i, (ccp_rx_complete_cb s p rxtime ti toff).frames i = s.frames i) := by
  cases hc : (s.status.valid || decide (u16 (s.idx + 1) > 1)) with
  | false =>
    refine ⟨?_, ?_, ?_⟩
    · simp [ccp_rx_complete_cb, hc]
    · intro hvalid
      exfalso
      simp [ccp_rx_complete_cb, hc] at hvalid
    · intro _ i
      simp [ccp_rx_complete_cb, hc]
  | true =>
    refine ⟨?_, ?_, ?_⟩
    · simp [ccp_rx_complete_cb, hc]
    · intro _
      simp [ccp_rx_complete_cb, hc, updFrames_self]
    · intro hvalid
      exfalso
      simp [ccp_rx_complete_cb, hc] at hvalid

/-- C7 witness: a second reception (valid) copies the payload; the
`valid = false` branch is exercised through the first-reception state. -/
theorem ccp_rx_index_advance_copy_when_valid_witness :
    (ccp_rx_complete_cb sampleState ⟨0xB5, 7, 9⟩ 10 3 1).idx = 2
    ∧ (ccp_rx_complete_cb sampleState ⟨0xB5, 7, 9⟩ 10 3 1).status.valid = true
    ∧ ((ccp_rx_complete_cb sampleState ⟨0xB5, 7, 9⟩ 10 3 1).frames
        (currentSlot (u16 (sampleState.idx + 1)) sampleState.nframes)).seq_num = 7
    ∧ (ccp_rx_complete_cb sampleState0 ⟨0xB5, 7, 9⟩ 10 3 1).status.valid = false
    ∧ (ccp_rx_complete_cb sampleState0 ⟨0xB5, 7, 9⟩ 10 3 1).frames 1
      = sampleState0.frames 1 := by
  have h := ccp_rx_index_advance_copy_when_valid sampleState ⟨0xB5, 7, 9⟩ 10 3 1
  have h0 := ccp_rx_index_advance_copy_when_valid sampleState0 ⟨0xB5, 7, 9⟩ 10 3 1
  refine ⟨by rw [h.1]; decide, by decide, (h.2.1 (by decide)).2.1, by decide,
    h0.2.2 (by decide) 1⟩

/-- C8: Re-initialization with an identical frame count does not
reallocate the CCP instance and leaves the frame index (and frame count)
unchanged; re-initialization with a different frame count is an assertion
failure (modelled as `none`), not a runtime-recoverable condition. -/
theorem ccp_init_idempotent_and_mismatch_fatal (c : CcpState)
    (cm pUs st n : Nat) (hne : n ≠ c.nframes) :
    (∃ r, dw1000_ccp_init (some c) c.nframes cm pUs st = some r
        ∧ r.fresh_alloc = false ∧ r.inst.idx = c.idx ∧ r.inst.nframes = c.nframes)
    ∧ dw1000_ccp_init (some c) n cm pUs st = none := by
  constructor
  · refine ⟨ccpInitTail c false cm pUs st, ?_, rfl, rfl, rfl⟩
    simp [dw1000_ccp_init]
  · simp [dw1000_ccp_init]
    exact fun h => hne h.symm

/-- C8 witness: re-initialization of the concrete sample instance with the
same frame count (2) succeeds without reallocation and keeps `idx = 1`;
with frame count 4 it is an assertion failure. -/
theorem ccp_init_idempotent_and_mismatch_fatal_witness :
    (4 : Nat) ≠ sampleState.nframes
    ∧ (∃ r, dw1000_ccp_init (some sampleState) sampleState.nframes 3 1000 77 = some r
        ∧ r.fresh_alloc = false ∧ r.inst.idx = sampleState.idx
        ∧ r.inst.nframes = sampleState.nframes)
    ∧ dw1000_ccp_init (some sampleState) 4 3 1000 77 = none := by
  have h := ccp_init_idempotent_and_mismatch_fatal sampleState 3 1000 77 4 (by decide)
  exact ⟨by decide, h.1, h.2⟩

/-- C9: The static template array holds exactly two frame records, and the
frame-pointer assignment loop of `dw1000_ccp_init` reads template indices
`0..nframes-1`, so every read is in bounds precisely when `nframes ≤ 2`;
every call with `nframes > 2` indexes past the end of the static array.
The final conjunct ties the read set to the embedded `dw1000_ccp_init`. -/
theorem ccp_init_template_reads_bounds :
    frames_template.length = 2
    ∧ (∀ nframes : Nat,
        (∀ i ∈ ccpInitTemplateReads nframes, i < frames_template.length) ↔ nframes ≤ 2)
    ∧ (∀ (c : CcpState) (cm pUs st : Nat) (r : CcpInitResult),
        dw1000_ccp_init (some c) c.nframes cm pUs st = some r →
          r.template_reads = ccpInitTemplateReads c.nframes) := by
  refine ⟨rfl, ?_, ?_⟩
  · intro n
    simp only [ccpInitTemplateReads, List.mem_range, frames_template, List.length_cons,
      List.length_nil]
    constructor
    · intro h
      by_contra hlt
      push_neg at hlt
      have := h 2 (by omega)
      omega
    · intro h i hi
      omega
  · intro c cm pUs st r hr
    simp [dw1000_ccp_init] at hr
    rw [← hr]
    rfl

/-- C9 witness: the loop's reads are out of bounds for `nframes = 3` and
in bounds for `nframes = 2`, and a concrete re-init's read set is
`range nframes`. -/
theorem ccp_init_template_reads_bounds_witness :
    frames_template.length = 2
    ∧ ¬ (∀ i ∈ ccpInitTemplateReads 3, i < frames_template.length)
    ∧ (∀ i ∈ ccpInitTemplateReads 2, i < frames_template.length)
    ∧ (ccpInitTail sampleState false 3 1000 77).template_reads
      = ccpInitTemplateReads 2 := by
  have h := ccp_init_template_reads_bounds
  refine ⟨h.1, ?_, (h.2.1 2).mpr (by decide), ?_⟩
  · intro hall
    have := (h.2.1 3).mp hall
    omega
  · exact h.2.2 sampleState 3 1000 77 _ (by simp [dw1000_ccp_init])

/-- C10: Every call to `dw1000_ccp_start` resets the index to `0`, clears
the `valid` flag (even if it was previously true), and overwrites the
current (slot-`0`) frame's `transmission_timestamp` with the hardware
system time, while leaving `period`, the frame count and the registered
completion callbacks unchanged; it also enables the scheduling timer. -/
theorem ccp_start_resets_state (s : CcpState) (systime : Nat) :
    (dw1000_ccp_start s systime).idx = 0
    ∧ (dw1000_ccp_start s systime).status.valid = false
    ∧ ((dw1000_ccp_start s systime).frames
        (currentSlot 0 s.nframes)).transmission_timestamp = systime
    ∧ (dw1000_ccp_start s systime).period = s.period
    ∧ (dw1000_ccp_start s systime).nframes = s.nframes
    ∧ (dw1000_ccp_start s systime).rx_cb = s.rx_cb
    ∧ (dw1000_ccp_start s systime).tx_cb = s.tx_cb
    ∧ (dw1000_ccp_start s systime).status.timer_enabled = true := by
  refine ⟨rfl, rfl, ?_, rfl, rfl, rfl, rfl, rfl⟩
  simp [dw1000_ccp_start, updFrames_self]

end DW1000CCP
